import Mathlib

/-!
Verification of the Daemon message-lifecycle orchestrator
(packages/daemon/src/daemon.ts and packages/daemon/src/llm.ts).

The TypeScript source is shallowly embedded below.  External
collaborators are modelled as explicit parameters, following the
specification's interface boundaries:

* the ed25519 detached-signature primitive (tweetnacl's
  `nacl.sign.detached`) is a function parameter
  `naclSign : List Nat → List Nat → List Nat` (message bytes, secret key
  bytes → signature bytes);
* remote MCP tool servers are a function parameter `remote` giving the
  result of a remote tool invocation;
* the language-model adapters are opaque generation parameters
  (a result for the blocking path, a chunk list for the streaming path).

Nondeterministic effects (`nanoid()`, `new Date().toISOString()`) are
modelled by an explicit `FreshTrace` carrying the successive values the
calls return, in source evaluation order.  Network side effects are
recorded in an explicit `NetEvent` trace.
-/

/-! ## Bytes, base64, UTF-8 and JSON serialization

Models of `Buffer.from(_, "base64")`, `Buffer.toString("base64")`,
`Buffer.from(_, "utf-8")` and `JSON.stringify(_, null, 0)` as used by
`Daemon.sign` and `Daemon.generateApproval`.  Bytes are `List Nat`
(each < 256). -/

/-- The base64 alphabet used by `Buffer.toString("base64")`. -/
def b64Alphabet : List Char :=
  "ABCDEFGHIJKLMNOPQRSTUVWXYZabcdefghijklmnopqrstuvwxyz0123456789+/".data

/-- Character of a 6-bit group. -/
def b64CharOf (n : Nat) : Char := b64Alphabet.getD n 'A'

/-- Index of a base64 character, `none` for characters outside the
alphabet (node's decoder skips those) and for padding. -/
def b64Value (c : Char) : Option Nat :=
  b64Alphabet.indexOf? c

/-- Base64 encoding of a byte list, with `=` padding
(`Buffer.toString("base64")`). -/
def b64encodeChars : List Nat → List Char
  | [] => []
  | [a] => [b64CharOf (a / 4), b64CharOf (a % 4 * 16), '=', '=']
  | [a, b] =>
      [b64CharOf (a / 4), b64CharOf (a % 4 * 16 + b / 16), b64CharOf (b % 16 * 4), '=']
  | a :: b :: c :: rest =>
      b64CharOf (a / 4) :: b64CharOf (a % 4 * 16 + b / 16) ::
      b64CharOf (b % 16 * 4 + c / 64) :: b64CharOf (c % 64) :: b64encodeChars rest

/-- Base64 encoding as a string. -/
def b64encode (bytes : List Nat) : String := String.mk (b64encodeChars bytes)

/-- Decode a list of 6-bit values into bytes (4 values → 3 bytes,
trailing groups per base64). -/
def b64decodeCore : List Nat → List Nat
  | a :: b :: c :: d :: rest =>
      (a * 4 + b / 16) :: (b % 16 * 16 + c / 4) :: (c % 4 * 64 + d) :: b64decodeCore rest
  | [a, b] => [a * 4 + b / 16]
  | [a, b, c] => [a * 4 + b / 16, b % 16 * 16 + c / 4]
  | _ => []

/-- `Buffer.from(s, "base64")`: keep alphabet characters, decode. -/
def b64decode (s : String) : List Nat :=
  b64decodeCore (s.data.filterMap b64Value)

/-- UTF-8 bytes of one character. -/
def utf8Char (c : Char) : List Nat :=
  let n := c.toNat
  if n < 128 then [n]
  else if n < 2048 then [192 + n / 64, 128 + n % 64]
  else if n < 65536 then [224 + n / 4096, 128 + n / 64 % 64, 128 + n % 64]
  else [240 + n / 262144, 128 + n / 4096 % 64, 128 + n / 64 % 64, 128 + n % 64]

/-- `Buffer.from(s, "utf-8")` as a byte list. -/
def utf8Encode (s : String) : List Nat := (s.data.map utf8Char).flatten

/-- Lowercase hexadecimal digit. -/
def hexDigit (n : Nat) : Char :=
  if n < 10 then Char.ofNat (48 + n) else Char.ofNat (87 + n)

/-- JSON string escaping of one character, per `JSON.stringify`. -/
def jsonEscapeChar (c : Char) : List Char :=
  if c = '"' then ['\\', '"']
  else if c = '\\' then ['\\', '\\']
  else if c = Char.ofNat 8 then ['\\', 'b']
  else if c = Char.ofNat 9 then ['\\', 't']
  else if c = Char.ofNat 10 then ['\\', 'n']
  else if c = Char.ofNat 12 then ['\\', 'f']
  else if c = Char.ofNat 13 then ['\\', 'r']
  else if c.toNat < 32 then ['\\', 'u', '0', '0', hexDigit (c.toNat / 16), hexDigit (c.toNat % 16)]
  else [c]

/-- A JSON string literal: quoted, escaped. -/
def jsonQuote (s : String) : String :=
  String.mk ('"' :: (s.data.map jsonEscapeChar).flatten ++ ['"'])

/-- The canonical approval envelope of `Daemon.generateApproval`:
`JSON.stringify({message, createdAt, messageId, channelId}, null, 0)`
(insertion order of the object literal, no formatting whitespace). -/
def approvalJson (message createdAt messageId channelId : String) : String :=
  "\x7b\"message\":" ++ jsonQuote message ++
  ",\"createdAt\":" ++ jsonQuote createdAt ++
  ",\"messageId\":" ++ jsonQuote messageId ++
  ",\"channelId\":" ++ jsonQuote channelId ++ "\x7d"

/-! ## Data model (types.ts as used by daemon.ts) -/

/-- A declared tool parameter: name, primitive type tag, description. -/
structure ToolParameter where
  name : String
  type : String
  description : String
deriving Repr, DecidableEq

/-- A registered remote tool (`ToolProvider`). -/
structure ToolProvider where
  serverUrl : String
  toolName : String
  type : String
  description : String
  parameters : List ToolParameter
deriving Repr, DecidableEq

/-- A model-provider configuration (`ModelProvider`). -/
structure ModelProvider where
  provider : String
  models : List String
  apiKey : String
  endpoint : String
deriving Repr, DecidableEq

/-- The daemon's character identity. -/
structure Character where
  name : String
  pubkey : String
  identityPrompt : Option String
deriving Repr, DecidableEq

/-- The signing keypair: base58 public key and secret key bytes.  The
secret key never leaves the daemon except through `naclSign`. -/
structure Keypair where
  publicKeyBase58 : String
  secretKey : List Nat
deriving Repr, DecidableEq

/-- The daemon instance state: character, keypair, model registry and
tool registry (both start empty in the constructor). -/
structure Daemon where
  character : Character
  keypair : Keypair
  models : List ModelProvider
  tools : List ToolProvider
deriving Repr, DecidableEq

/-! ## Signing capability (daemon.ts `sign`, `generateApproval`) -/

/-- The external detached-signing primitive `nacl.sign.detached`:
message bytes and secret-key bytes to signature bytes. -/
abbrev NaclSign := List Nat → List Nat → List Nat

/-- `Daemon.sign({payload})`: base64-decode the payload, sign the bytes
with the secret key, base64-encode the signature.  (The runtime
keypair-missing guard is dead under the constructor, which always binds
a keypair.) -/
def Daemon.sign (d : Daemon) (naclSign : NaclSign) (payload : String) : String :=
  b64encode (naclSign (b64decode payload) d.keypair.secretKey)

/-- `Daemon.generateApproval(message, createdAt, messageId, channelId?)`:
serialize the canonical envelope with `channelId ?? ""`, UTF-8 encode,
base64 encode, and sign that payload. -/
def Daemon.generateApproval (d : Daemon) (naclSign : NaclSign)
    (message createdAt messageId : String) (channelId : Option String) : String :=
  let messageBytes := utf8Encode (approvalJson message createdAt messageId (channelId.getD ""))
  d.sign naclSign (b64encode messageBytes)

/-- Claim C7: for every message text, createdAt string and messageId,
`generateApproval` with `channelId` omitted (undefined) produces exactly
the same signature as with `channelId` explicitly the empty string, for
any daemon and any signing primitive: both canonicalize to the same
envelope with `channelId` `""` before signing. -/
theorem c7_generateApproval_channelId_canonicalization
    (d : Daemon) (naclSign : NaclSign) (message createdAt messageId : String) :
    d.generateApproval naclSign message createdAt messageId none =
      d.generateApproval naclSign message createdAt messageId (some "") := by
  rfl

/-! ## Remote Tool Client (daemon.ts `callTool`) and network event trace -/

/-- A runtime JavaScript value as far as `callTool`'s argument
validation observes it: `typeof` tags plus `Array.isArray`.  `obj`
stands for a plain object value (its fields are never inspected by the
embedded code). -/
inductive JsVal where
  | str (s : String)
  | num (n : Int)
  | boolean (b : Bool)
  | arr
  | obj
  | jsNull
  | jsUndefined
deriving Repr, DecidableEq

/-- `typeof` of a value (`typeof null` and `typeof []` are both
`"object"`). -/
def typeofJs : JsVal → String
  | .str _ => "string"
  | .num _ => "number"
  | .boolean _ => "boolean"
  | .arr => "object"
  | .obj => "object"
  | .jsNull => "object"
  | .jsUndefined => "undefined"

/-- `Array.isArray`. -/
def isArrayJs : JsVal → Bool
  | .arr => true
  | _ => false

/-- An argument map; `args[name]` on a missing key is `undefined`. -/
abbrev ArgMap := List (String × JsVal)

/-- JavaScript property lookup `args[name]`. -/
def lookupArg (args : ArgMap) (name : String) : JsVal :=
  match args.find? (fun kv => kv.fst == name) with
  | some kv => kv.snd
  | none => .jsUndefined

/-- Spread-with-override `{...args, name: v}`. -/
def setArg (args : ArgMap) (name : String) (v : JsVal) : ArgMap :=
  if (args.find? (fun kv => kv.fst == name)).isSome then
    args.map (fun kv => if kv.fst == name then (name, v) else kv)
  else
    args ++ [(name, v)]

/-- Whether one declared parameter's check passes on the argument map
(the body of one iteration of `callTool`'s validation loop; a type tag
outside the five known ones is not checked). -/
def paramOK (args : ArgMap) (p : ToolParameter) : Bool :=
  if p.type == "string" then typeofJs (lookupArg args p.name) == "string"
  else if p.type == "number" then typeofJs (lookupArg args p.name) == "number"
  else if p.type == "boolean" then typeofJs (lookupArg args p.name) == "boolean"
  else if p.type == "array" then isArrayJs (lookupArg args p.name)
  else if p.type == "object" then typeofJs (lookupArg args p.name) == "object"
  else true

/-- The error message thrown for a failing parameter. -/
def mismatchMsg (p : ToolParameter) : String :=
  if p.type == "array" || p.type == "object" then
    p.name ++ " must be an " ++ p.type
  else
    p.name ++ " must be a " ++ p.type

/-- The validation loop of `callTool`: first mismatching declared
parameter's error, or `none` when all pass. -/
def validateArgs (params : List ToolParameter) (args : ArgMap) : Option String :=
  match params with
  | [] => none
  | p :: rest =>
      if paramOK args p then validateArgs rest args
      else some (mismatchMsg p)

/-- Network-visible events of the embedded code, in order of
occurrence. -/
inductive NetEvent where
  | sessionOpened (url : String)
  | toolCalled (url : String) (name : String)
  | sessionClosed (url : String)
  | genCalled (provider : String) (model : String)
deriving Repr, DecidableEq

/-- JavaScript `s.endsWith(suffix)` over the character sequences. -/
def jsEndsWith (s suffix : String) : Bool :=
  decide (suffix.data.length ≤ s.data.length) &&
    (s.data.drop (s.data.length - suffix.data.length) == suffix.data)

/-- `url.endsWith('/sse') ? url : url + '/sse'`. -/
def ensureSse (url : String) : String :=
  if jsEndsWith url "/sse" then url else url ++ "/sse"

/-- The result of a remote MCP invocation, supplied by the environment
(the tool servers are external collaborators): `ok` carries the result
content (abstracted as a string), `error` a rejection. -/
abbrev RemoteEnv := ToolProvider → ArgMap → Except String String

/-- `Daemon.callTool(tool, args)`: connect to the server's `/sse`
endpoint, then run the validation loop (throwing on first mismatch,
with the session left open), then invoke the remote tool, then close
the session; a remote rejection also skips the close.  Returns the
result together with the ordered network events. -/
def Daemon.callTool (tool : ToolProvider) (args : ArgMap) (remote : RemoteEnv) :
    Except String String × List NetEvent :=
  let url := ensureSse tool.serverUrl
  match validateArgs tool.parameters args with
  | some err => (.error err, [.sessionOpened url])
  | none =>
      match remote tool args with
      | .error e => (.error e, [.sessionOpened url, .toolCalled url tool.toolName])
      | .ok r => (.ok r, [.sessionOpened url, .toolCalled url tool.toolName, .sessionClosed url])

/-! ## Hook Callback Protocol (daemon.ts `hook`) -/

/-- The callback target of a hook. -/
structure HookTool where
  hookServerUrl : String
  toolName : String
  toolArgs : ArgMap
deriving Repr, DecidableEq

/-- A hook request delivered by a tool server.  `daemonArgs` is the
`{payload}` argument of the internal `sign` capability; `hookOutput`
is the slot the dispatch writes. -/
structure IHook where
  daemonTool : String
  daemonArgs : String
  hookTool : HookTool
  hookOutput : Option String
deriving Repr, DecidableEq

/-- The result of the callback invocation on the (never-connected)
client, supplied by the environment. -/
abbrev HookRemoteEnv := HookTool → ArgMap → Except String String

/-- `Daemon.hook(hook)`: switch on `daemonTool` (only `"sign"` is
handled; anything else leaves `hookOutput` untouched), then construct a
client named after `hookTool.hookServerUrl` — the source never calls
`client.connect`, so no session-opened event occurs — and invoke
`hookTool.toolName` with `{...toolArgs, daemonOutput: hookOutput}`. -/
def Daemon.hook (d : Daemon) (naclSign : NaclSign) (h : IHook) (remote : HookRemoteEnv) :
    Except String String × List NetEvent :=
  let hookOutput : Option String :=
    if h.daemonTool == "sign" then some (d.sign naclSign h.daemonArgs) else h.hookOutput
  let callbackArgs := setArg h.hookTool.toolArgs "daemonOutput"
    (match hookOutput with
     | some s => .str s
     | none => .jsUndefined)
  (remote h.hookTool callbackArgs, [.toolCalled h.hookTool.hookServerUrl h.hookTool.toolName])

/-- Claim C2 (refuted by the code, recorded as a code bug): the claim
states that for every dispatched hook a session to
`hook.hookTool.hookServerUrl` is opened before `hook.hookTool.toolName`
is invoked.  In the source, `Daemon.hook` constructs the client but
never calls `client.connect`: the event trace of every hook dispatch is
exactly one tool invocation on the callback server and contains no
session-opened event at all. -/
theorem c2_hook_no_session_opened
    (d : Daemon) (naclSign : NaclSign) (h : IHook) (remote : HookRemoteEnv) :
    (d.hook naclSign h remote).2 =
        [.toolCalled h.hookTool.hookServerUrl h.hookTool.toolName] ∧
    ∀ url, NetEvent.sessionOpened url ∉ (d.hook naclSign h remote).2 := by
  refine ⟨rfl, ?_⟩
  intro url hmem
  simp [Daemon.hook] at hmem

/-! ## Claims C3 and C4 about `callTool` -/

deriving instance DecidableEq for Except

/-- The validation loop reports exactly the first declared parameter
whose check fails. -/
theorem validateArgs_eq_find (params : List ToolParameter) (args : ArgMap) :
    validateArgs params args =
      (params.find? (fun p => !paramOK args p)).map mismatchMsg := by
  induction params with
  | nil => rfl
  | cons p rest ih =>
      by_cases hp : paramOK args p
      · simp [validateArgs, hp, List.find?, ih]
      · simp [validateArgs, hp, List.find?]

/-- A tool declaring a single `number` parameter. -/
def c3Tool : ToolProvider :=
  { serverUrl := "http://tools.example"
    toolName := "add"
    type := "action"
    description := "adds numbers"
    parameters := [{ name := "n", type := "number", description := "a number" }] }

/-- An argument map giving that parameter a string value. -/
def c3Args : ArgMap := [("n", JsVal.str "five")]

/-- A remote environment that would answer the call. -/
def c3Remote : RemoteEnv := fun _ _ => .ok "ok"

/-- Claim C3, counterexample: calling `c3Tool` with a string where a
number is declared does fail with the validation error naming the
parameter, but a session IS opened first — the source connects before
running the validation loop, so "no session is opened" is false. -/
theorem c3_counterexample :
    (Daemon.callTool c3Tool c3Args c3Remote).1 = .error "n must be a number" ∧
    NetEvent.sessionOpened "http://tools.example/sse" ∈
      (Daemon.callTool c3Tool c3Args c3Remote).2 := by
  decide

/-- Claim C3 as amended: for every tool and argument map on which some
declared parameter's check fails, `callTool` fails with a validation
error naming the first offending parameter and the remote tool is never
invoked — but the session to the server has already been opened (the
connection is established before validation), so the event trace is
exactly one session-opened event. -/
theorem c3_validation_before_invocation
    (tool : ToolProvider) (args : ArgMap) (remote : RemoteEnv) (err : String)
    (h : validateArgs tool.parameters args = some err) :
    (Daemon.callTool tool args remote).1 = .error err ∧
    (Daemon.callTool tool args remote).2 =
      [.sessionOpened (ensureSse tool.serverUrl)] ∧
    (∀ url name, NetEvent.toolCalled url name ∉ (Daemon.callTool tool args remote).2) ∧
    ∃ p, tool.parameters.find? (fun q => !paramOK args q) = some p ∧ err = mismatchMsg p := by
  refine ⟨?_, ?_, ?_, ?_⟩
  · simp [Daemon.callTool, h]
  · simp [Daemon.callTool, h]
  · intro url name hmem
    simp [Daemon.callTool, h] at hmem
  · have h' := h
    rw [validateArgs_eq_find] at h'
    rcases Option.map_eq_some'.mp h' with ⟨p, hp, hmsg⟩
    exact ⟨p, hp, hmsg.symm⟩

/-- Witness for the amended claim C3 at the concrete mismatching
input. -/
theorem c3_witness :
    (Daemon.callTool c3Tool c3Args c3Remote).1 = .error "n must be a number" ∧
    (Daemon.callTool c3Tool c3Args c3Remote).2 =
      [.sessionOpened (ensureSse c3Tool.serverUrl)] ∧
    (∀ url name, NetEvent.toolCalled url name ∉ (Daemon.callTool c3Tool c3Args c3Remote).2) ∧
    ∃ p, c3Tool.parameters.find? (fun q => !paramOK c3Args q) = some p ∧
      "n must be a number" = mismatchMsg p :=
  c3_validation_before_invocation c3Tool c3Args c3Remote "n must be a number" (by decide)

/-- A tool declaring a single `boolean` parameter (for claim C4). -/
def c4Tool : ToolProvider :=
  { serverUrl := "http://c4.example"
    toolName := "toggle"
    type := "action"
    description := "toggles a flag"
    parameters := [{ name := "flag", type := "boolean", description := "a flag" }] }

/-- Arguments failing `c4Tool`'s declared parameter type. -/
def c4BadArgs : ArgMap := [("flag", JsVal.num 1)]

/-- Arguments passing `c4Tool`'s declared parameter type. -/
def c4OkArgs : ArgMap := [("flag", JsVal.boolean true)]

/-- A remote environment answering every call. -/
def c4Remote : RemoteEnv := fun _ _ => .ok "done"

/-- Claim C4, counterexample: when a validation error is thrown after
the session was opened, the session is NOT closed — there is no
session-closed event in the trace, falsifying "the session is closed
unconditionally". -/
theorem c4_counterexample :
    (Daemon.callTool c4Tool c4BadArgs c4Remote).1 = .error "flag must be a boolean" ∧
    NetEvent.sessionOpened "http://c4.example/sse" ∈
      (Daemon.callTool c4Tool c4BadArgs c4Remote).2 ∧
    NetEvent.sessionClosed "http://c4.example/sse" ∉
      (Daemon.callTool c4Tool c4BadArgs c4Remote).2 := by
  decide

/-- Claim C4 as amended: the session is closed only after a successful
remote invocation.  When a validation error is thrown after the session
was opened, the session is not closed (no session-closed event); a
remote rejection likewise skips the close. -/
theorem c4_close_only_on_success (tool : ToolProvider) (args : ArgMap) (remote : RemoteEnv) :
    (∀ r, validateArgs tool.parameters args = none → remote tool args = .ok r →
        (Daemon.callTool tool args remote).2 =
          [.sessionOpened (ensureSse tool.serverUrl),
           .toolCalled (ensureSse tool.serverUrl) tool.toolName,
           .sessionClosed (ensureSse tool.serverUrl)]) ∧
    (∀ err, validateArgs tool.parameters args = some err →
        NetEvent.sessionClosed (ensureSse tool.serverUrl) ∉
          (Daemon.callTool tool args remote).2) ∧
    (∀ e, validateArgs tool.parameters args = none → remote tool args = .error e →
        (Daemon.callTool tool args remote).2 =
          [.sessionOpened (ensureSse tool.serverUrl),
           .toolCalled (ensureSse tool.serverUrl) tool.toolName]) := by
  refine ⟨?_, ?_, ?_⟩
  · intro r hv hr
    simp [Daemon.callTool, hv, hr]
  · intro err hv hmem
    simp [Daemon.callTool, hv] at hmem
  · intro e hv hr
    simp [Daemon.callTool, hv, hr]

/-- Witness for the amended claim C4: at a concrete valid call the full
open/invoke/close trace occurs. -/
theorem c4_witness :
    (Daemon.callTool c4Tool c4OkArgs c4Remote).2 =
      [.sessionOpened (ensureSse c4Tool.serverUrl),
       .toolCalled (ensureSse c4Tool.serverUrl) c4Tool.toolName,
       .sessionClosed (ensureSse c4Tool.serverUrl)] :=
  (c4_close_only_on_success c4Tool c4OkArgs c4Remote).1 "done" (by decide) (by decide)

/-! ## Model registry (daemon.ts `addModelProvider`) — claim C10 -/

/-- `Daemon.addModelProvider(provider)` on the registry list: if an
entry with the same provider name exists, map-replace matching entries;
otherwise push. -/
def addModelProvider (models : List ModelProvider) (p : ModelProvider) : List ModelProvider :=
  match models.find? (fun q => q.provider == p.provider) with
  | some _ => models.map (fun q => if q.provider == p.provider then p else q)
  | none => models ++ [p]

/-- Claim C10: for every registry state and provider `p`, registering
`p` when an entry with the same provider name exists replaces in place
(length unchanged; every position holds its old entry, except positions
whose entry carried `p`'s provider name, which now hold `p`); when no
entry with that name exists, `p` is appended and the length grows by
one. -/
theorem c10_addModelProvider (models : List ModelProvider) (p : ModelProvider) :
    ((∃ q ∈ models, q.provider = p.provider) →
        (addModelProvider models p).length = models.length ∧
        ∀ i (h : i < models.length),
          (addModelProvider models p)[i]? =
            some (if (models.get ⟨i, h⟩).provider = p.provider then p
                  else models.get ⟨i, h⟩)) ∧
    ((∀ q ∈ models, q.provider ≠ p.provider) →
        addModelProvider models p = models ++ [p] ∧
        (addModelProvider models p).length = models.length + 1) := by
  constructor
  · intro hex
    have hfind : (models.find? (fun q => q.provider == p.provider)).isSome := by
      rw [List.find?_isSome]
      rcases hex with ⟨q, hq, hqp⟩
      exact ⟨q, hq, by simpa using hqp⟩
    rcases Option.isSome_iff_exists.mp hfind with ⟨q, hq⟩
    constructor
    · simp [addModelProvider, hq]
    · intro i h
      have : (addModelProvider models p) = models.map
          (fun q => if q.provider == p.provider then p else q) := by
        simp [addModelProvider, hq]
      rw [this, List.getElem?_map, List.getElem?_eq_getElem h]
      simp [List.get_eq_getElem]
  · intro hnone
    have hfind : models.find? (fun q => q.provider == p.provider) = none := by
      rw [List.find?_eq_none]
      intro q hq
      simpa using hnone q hq
    constructor
    · simp [addModelProvider, hfind]
    · simp [addModelProvider, hfind]

/-- The first registration of the provider (claim C10 witness data). -/
def c10Base : ModelProvider :=
  { provider := "openai", models := ["gpt-4o-mini"], apiKey := "key1",
    endpoint := "https://api.openai.com/v1" }

/-- A second registration under the same provider name. -/
def c10New : ModelProvider :=
  { provider := "openai", models := ["gpt-4-turbo"], apiKey := "key2",
    endpoint := "https://api.openai.com/v1/" }

/-- Witness for claim C10: re-registering `openai` over a one-entry
registry keeps length 1 and the entry becomes the second
registration. -/
theorem c10_witness :
    (addModelProvider [c10Base] c10New).length = [c10Base].length ∧
    (addModelProvider [c10Base] c10New)[0]? =
      some (if ([c10Base].get ⟨0, by decide⟩).provider = c10New.provider then c10New
            else [c10Base].get ⟨0, by decide⟩) :=
  ⟨((c10_addModelProvider [c10Base] c10New).1 ⟨c10Base, by simp, rfl⟩).1,
   ((c10_addModelProvider [c10Base] c10New).1 ⟨c10Base, by simp, rfl⟩).2 0 (by decide)⟩

/-! ## Streaming accumulation (llm.ts `genTextWithTools`) — claim C9 -/

/-- The chunk loop of `genTextWithTools`'s output observable: starting
from the accumulator, each streamed chunk is appended to the running
output and the running output is emitted (`output += chunk;
observer.next(output)`). -/
def accumulateChunks (output : String) : List String → List String
  | [] => []
  | c :: cs => (output ++ c) :: accumulateChunks (output ++ c) cs

/-- The full sequence of values emitted by the output observable for a
finite chunk stream (`output` starts as the empty string). -/
def emittedOutputs (chunks : List String) : List String :=
  accumulateChunks "" chunks

/-- Each emitted value is the left fold of the chunks consumed so far
onto the starting accumulator. -/
theorem accumulateChunks_eq (cs : List String) :
    ∀ acc, accumulateChunks acc cs =
      (List.range cs.length).map (fun i => (cs.take (i + 1)).foldl (· ++ ·) acc) := by
  induction cs with
  | nil => intro acc; rfl
  | cons c cs ih =>
      intro acc
      rw [accumulateChunks, ih (acc ++ c)]
      rw [List.length_cons, List.range_succ_eq_map, List.map_cons, List.map_map]
      simp [Function.comp_def, List.take_succ_cons]

/-- Claim C9: in the streaming tool-augmented generation strategy, the
emitted values are running totals — one emission per chunk, the value
at position i is the concatenation of the first i+1 chunks, and every
emitted value extends the previously emitted one (each published value
is the cumulative output, not a delta). -/
theorem c9_streaming_running_totals (chunks : List String) :
    (emittedOutputs chunks).length = chunks.length ∧
    (∀ i (h : i < (emittedOutputs chunks).length),
        (emittedOutputs chunks).get ⟨i, h⟩ = String.join (chunks.take (i + 1))) ∧
    (∀ i (h : i + 1 < (emittedOutputs chunks).length),
        ∃ rest, (emittedOutputs chunks).get ⟨i, Nat.lt_of_succ_lt h⟩ ++ rest =
          (emittedOutputs chunks).get ⟨i + 1, h⟩) := by
  have hjoin : ∀ l : List String, String.join l = l.foldl (· ++ ·) "" := by
    intro l; rfl
  have hmap : emittedOutputs chunks =
      (List.range chunks.length).map (fun i => String.join (chunks.take (i + 1))) := by
    rw [emittedOutputs, accumulateChunks_eq chunks ""]
    exact List.map_congr_left (fun a _ => (hjoin _).symm)
  have hlen : (emittedOutputs chunks).length = chunks.length := by
    rw [hmap, List.length_map, List.length_range]
  have hget : ∀ i (h : i < (emittedOutputs chunks).length),
      (emittedOutputs chunks).get ⟨i, h⟩ = String.join (chunks.take (i + 1)) := by
    intro i h
    have hi : i < chunks.length := hlen ▸ h
    have hopt : (emittedOutputs chunks)[i]? = some (String.join (chunks.take (i + 1))) := by
      rw [hmap, List.getElem?_map, List.getElem?_range hi, Option.map_some']
    have h2 : (emittedOutputs chunks)[i]? = some ((emittedOutputs chunks).get ⟨i, h⟩) := by
      rw [List.get_eq_getElem]
      exact List.getElem?_eq_getElem h
    rw [hopt] at h2
    exact (Option.some.inj h2).symm
  refine ⟨hlen, hget, ?_⟩
  intro i h
  have hi1 : i + 1 < chunks.length := hlen ▸ h
  refine ⟨chunks[i + 1], ?_⟩
  rw [hget i (Nat.lt_of_succ_lt h), hget (i + 1) h]
  have htake : chunks.take (i + 1 + 1) = (chunks.take (i + 1)).concat chunks[i + 1] :=
    (List.take_concat_get chunks (i + 1) hi1).symm
  rw [htake, List.concat_eq_append, hjoin, hjoin, List.foldl_append]
  rfl

/-- Witness for claim C9: on the concrete chunk stream
`["Hel", "lo "]` the second emitted value is the concatenation of the
first two chunks. -/
theorem c9_witness :
    (emittedOutputs ["Hel", "lo "]).get ⟨1, by decide⟩ =
      String.join (["Hel", "lo "].take 2) :=
  (c9_streaming_running_totals ["Hel", "lo "]).2.1 1 (by decide)

/-! ## Message lifecycle (daemon.ts `message`, `messageWithTools`) -/

/-- The `opts.llm` override record (`provider` and `model` are required
fields of the TypeScript type; the rest optional). -/
structure LlmOpts where
  provider : String
  model : String
  endpoint : Option String := none
  apiKey : Option String := none
  systemPrompt : Option String := none
deriving Repr, DecidableEq

/-- The `opts` argument of `message`/`messageWithTools`.  `toolArgs`
is keyed by `serverUrl-toolName`. -/
structure MessageOpts where
  channelId : Option String := none
  stagesContext : Option Bool := none
  stagesActions : Option Bool := none
  stagesPostProcess : Option Bool := none
  toolArgs : List (String × JsVal) := []
  llm : Option LlmOpts := none

/-- Default `MessageOpts`: calling `message(text)` with no options. -/
def MessageOpts.defaults : MessageOpts := {}

/-- The values returned by the effectful identity calls inside the base
publish, in source evaluation order: `messageId: nanoid()` (first
nanoid), `createdAt: new Date().toISOString()` (first date), then
inside the `generateApproval` argument list `new Date().toISOString()`
(second date) and `nanoid()` (second nanoid).  Distinct nanoid calls
return distinct fresh identifiers. -/
structure FreshTrace where
  nanoid1 : String
  date1 : String
  date2 : String
  nanoid2 : String
deriving Repr, DecidableEq

/-- The lifecycle record (`Partial<IMessageLifecycle>`): every field
optional, absent = not yet assigned.  Remote tool results and log
entries are abstracted as strings. -/
structure IMessageLifecycle where
  daemonPubkey : Option String := none
  daemonName : Option String := none
  messageId : Option String := none
  message : Option String := none
  createdAt : Option String := none
  approval : Option String := none
  channelId : Option String := none
  identityPrompt : Option String := none
  context : Option (List String) := none
  tools : Option (List String) := none
  generatedPrompt : Option String := none
  output : Option String := none
  hooks : Option (List IHook) := none
  hooksLog : Option (List String) := none
  actionsLog : Option (List String) := none
  postProcessLog : Option (List String) := none
deriving Repr, DecidableEq

/-- `DEFAULT_IDENTITY_PROMPT(name)`. -/
def DEFAULT_IDENTITY_PROMPT (name : String) : String :=
  "\nYou are " ++ name ++ ". Keep your responses concise and to the point.\n  "

/-- `createPrompt(daemonName, identityPrompt, message, context, tools)`
from llm.ts: the deterministic prompt template. -/
def createPrompt (daemonName identityPrompt message : String)
    (context tools : List String) : String :=
  "\n  # Name\n  " ++ daemonName ++
  "\n\n  # Identity Prompt\n  " ++ identityPrompt ++
  "\n\n  # User Message\n  " ++ message ++
  "\n  \n  # Context\n  " ++ String.intercalate "\n" context ++
  "\n\n  # Tools\n  " ++ String.intercalate "\n" tools ++
  "\n  "

/-- The top-level catch of `message`/`messageWithTools` rethrows any
failure as `new Error("Failed at step: " + e)`, where stringifying the
caught `Error` yields `Error: <message>`. -/
def wrapErr (e : String) : String := "Failed at step: Error: " ++ e

/-- The LLM configuration resolution shared by `message` and
`messageWithTools` (daemon.ts lines 199-224 / 371-395), faithfully
including `Object.keys(this.models)[0]`: `this.models` is an array, so
its first key is the index string `"0"` (or `undefined` when the
registry is empty), not a provider name. -/
def resolveLlm (d : Daemon) (opts : MessageOpts) :
    Except String (String × String × String × String) :=
  if d.models.length == 0 && opts.llm.isNone then
    .error "No model provider added"
  else
    let provider? : Option String :=
      match opts.llm with
      | some l => some l.provider
      | none => if d.models.isEmpty then none else some "0"
    match provider? with
    | none => .error "No LLM provider chosen"
    | some provider =>
        if provider == "" then .error "No LLM provider chosen"
        else
          let found := d.models.find? (fun p => p.provider == provider)
          let model : String :=
            match opts.llm with
            | some l => l.model
            | none => ((found.bind (fun p => p.models.head?)).getD "")
          if model == "" then .error "No LLM model chosen"
          else
            let apiKey : String :=
              match opts.llm.bind (fun l => l.apiKey) with
              | some k => k
              | none => ((found.map (fun p => p.apiKey)).getD "")
            if apiKey == "" then .error "No LLM API key chosen"
            else
              let endpoint : String :=
                match opts.llm.bind (fun l => l.endpoint) with
                | some e => e
                | none => ((found.map (fun p => p.endpoint)).getD "")
              if endpoint == "" then .error "No LLM endpoint chosen"
              else .ok (provider, model, apiKey, endpoint)

/-- The base lifecycle value published first by both `message` and
`messageWithTools`.  Note the source computes the published `messageId`
and `createdAt` with one pair of nanoid/date calls, and the approval
with a SECOND date call and a SECOND nanoid call. -/
def baseLifecycle (d : Daemon) (naclSign : NaclSign) (msg : String)
    (opts : MessageOpts) (tr : FreshTrace) : IMessageLifecycle :=
  { daemonPubkey := some d.keypair.publicKeyBase58
    daemonName := some d.character.name
    messageId := some tr.nanoid1
    message := some msg
    createdAt := some tr.date1
    approval := some (d.generateApproval naclSign msg tr.date2 tr.nanoid2 opts.channelId)
    channelId := opts.channelId
    identityPrompt := some (d.character.identityPrompt.getD
      (DEFAULT_IDENTITY_PROMPT d.character.name))
    context := some []
    tools := some []
    generatedPrompt := some ""
    output := some ""
    hooks := some []
    hooksLog := some []
    actionsLog := some []
    postProcessLog := some [] }

/-- JavaScript nullish coalescing `v ?? dflt` on values. -/
def jsCoalesce (v dflt : JsVal) : JsVal :=
  match v with
  | .jsUndefined => dflt
  | .jsNull => dflt
  | v => v

/-- The argument object each stage passes to `callTool`:
`{lifecycle: lifecycle.value, args: opts?.toolArgs?.[url-toolName] ?? \x7b\x7d}`.
The lifecycle value itself is serialized structured data whose content
the embedded validation only sees as an object. -/
def stageArgs (opts : MessageOpts) (t : ToolProvider) : ArgMap :=
  [("lifecycle", JsVal.obj),
   ("args", jsCoalesce (lookupArg opts.toolArgs (t.serverUrl ++ "-" ++ t.toolName)) JsVal.obj)]

/-- Join-all over the per-tool results of one stage (`Promise.all`):
the list of successes in registration order, or the first failure. -/
def collectExcept : List (Except String String) → Except String (List String)
  | [] => .ok []
  | .error e :: _ => .error e
  | .ok r :: rest =>
      match collectExcept rest with
      | .error e => .error e
      | .ok rs => .ok (r :: rs)

/-- One pipeline stage: invoke every registered tool of the given role
concurrently via `callTool` (fan-out; all calls run, so all their
events occur) and join the results in registration order. -/
def runStage (remote : RemoteEnv) (tools : List ToolProvider) (role : String)
    (opts : MessageOpts) : Except String (List String) × List NetEvent :=
  let calls := (tools.filter (fun t => t.type == role)).map
      (fun t => Daemon.callTool t (stageArgs opts t) remote)
  (collectExcept (calls.map Prod.fst), (calls.map Prod.snd).flatten)

/-- The blocking generation adapter: given provider, model, endpoint,
apiKey, system prompt and prompt, an output or a failure (the provider
adapters are external collaborators, consumed as an opaque
generate-text capability). -/
abbrev GenEnv := String → String → String → String → String → String → Except String String

/-- The result type of a message-processing call: the call's result
(wrapped error of the first failing step, or the terminal lifecycle
value), the ordered list of published lifecycle values, and the ordered
network events. -/
abbrev MessageRun :=
  Except String IMessageLifecycle × List IMessageLifecycle × List NetEvent

/-- Post-process stage shared by both pipelines (daemon.ts lines
329-345): invoke every `postProcess` tool, publish `postProcessLog`. -/
def messagePostTail (d : Daemon) (remote : RemoteEnv) (opts : MessageOpts)
    (L : IMessageLifecycle) (pubs : List IMessageLifecycle) (evs : List NetEvent)
    (postEnabled : Bool) : MessageRun :=
  if postEnabled then
    match runStage remote d.tools "postProcess" opts with
    | (.error e, ev) => (.error (wrapErr e), pubs, evs ++ ev)
    | (.ok ps, ev) =>
        let L6 := { L with postProcessLog := some ps }
        (.ok L6, pubs ++ [L6], evs ++ ev)
  else (.ok L, pubs, evs)

/-- Action stage and hook dispatch of `message` (daemon.ts lines
300-327): invoke every `action` tool, publish `actionsLog`, dispatch
every hook on the current lifecycle value, publish `hooksLog`, then
post-process. -/
def messageActionsTail (d : Daemon) (naclSign : NaclSign) (remote : RemoteEnv)
    (hookRemote : HookRemoteEnv) (opts : MessageOpts) (L3 : IMessageLifecycle)
    (pubs3 : List IMessageLifecycle) (ev3 : List NetEvent)
    (actionsEnabled postEnabled : Bool) : MessageRun :=
  if actionsEnabled then
    match runStage remote d.tools "action" opts with
    | (.error e, ev) => (.error (wrapErr e), pubs3, ev3 ++ ev)
    | (.ok acts, ev) =>
        let L4 := { L3 with actionsLog := some acts }
        let hookCalls := (L4.hooks.getD []).map (fun h => d.hook naclSign h hookRemote)
        let evH := ev3 ++ ev ++ (hookCalls.map Prod.snd).flatten
        match collectExcept (hookCalls.map Prod.fst) with
        | .error e => (.error (wrapErr e), pubs3 ++ [L4], evH)
        | .ok hres =>
            let L5 := { L4 with hooksLog := some hres }
            messagePostTail d remote opts L5 (pubs3 ++ [L4, L5]) evH postEnabled
  else messagePostTail d remote opts L3 pubs3 ev3 postEnabled

/-- Prompt construction and blocking generation of `message` (daemon.ts
lines 276-298): publish `generatedPrompt`, call `genText`, publish
`output`, then the action and post-process stages. -/
def messageGenTail (d : Daemon) (naclSign : NaclSign) (remote : RemoteEnv)
    (hookRemote : HookRemoteEnv) (gen : GenEnv) (opts : MessageOpts)
    (provider model apiKey endpoint : String) (L1 : IMessageLifecycle)
    (pubs1 : List IMessageLifecycle) (ev1 : List NetEvent) : MessageRun :=
  let L2 := { L1 with generatedPrompt := some (createPrompt
      (L1.daemonName.getD "") (L1.identityPrompt.getD "") (L1.message.getD "")
      (L1.context.getD []) (L1.tools.getD [])) }
  let pubs2 := pubs1 ++ [L2]
  let sys := (opts.llm.bind (fun l => l.systemPrompt)).getD ""
  let ev2 := ev1 ++ [NetEvent.genCalled provider model]
  match gen provider model endpoint apiKey sys (L2.generatedPrompt.getD "") with
  | .error e => (.error (wrapErr e), pubs2, ev2)
  | .ok out =>
      let L3 := { L2 with output := some out }
      messageActionsTail d naclSign remote hookRemote opts L3 (pubs2 ++ [L3]) ev2
        (opts.stagesActions.getD true) (opts.stagesPostProcess.getD true)

/-- `Daemon.message(message, opts)`: resolve the LLM configuration,
publish the base lifecycle, run the context stage if enabled, then
prompt construction, blocking generation, action stage with hook
dispatch, and post-process stage, publishing after each. -/
def Daemon.message (d : Daemon) (naclSign : NaclSign) (remote : RemoteEnv)
    (hookRemote : HookRemoteEnv) (gen : GenEnv) (msg : String) (opts : MessageOpts)
    (tr : FreshTrace) : MessageRun :=
  match resolveLlm d opts with
  | .error e => (.error (wrapErr e), [], [])
  | .ok (provider, model, apiKey, endpoint) =>
    let L0 := baseLifecycle d naclSign msg opts tr
    if opts.stagesContext.getD true then
      match runStage remote d.tools "context" opts with
      | (.error e, ev) => (.error (wrapErr e), [L0], ev)
      | (.ok rs, ev) =>
          let L1 := { L0 with context := some rs }
          messageGenTail d naclSign remote hookRemote gen opts provider model apiKey
            endpoint L1 [L0, L1] ev
    else
      messageGenTail d naclSign remote hookRemote gen opts provider model apiKey
        endpoint L0 [L0] []

/-- How the tool-augmented generation stream ends: normal completion
(the completion handler runs the remaining stages), a stream error
(logged as a warning; the lifecycle is returned anyway), the 30-second
timeout race firing first (likewise), or `genTextWithTools` itself
throwing before any chunk is emitted (rejects the whole call). -/
inductive StreamFate where
  | completed
  | errored
  | timedOut
  | setupFailed (e : String)
deriving Repr, DecidableEq

/-- Post-process stage inside `messageWithTools`'s completion handler:
a failing tool leaves the completion promise unsettled, so the timeout
path returns the lifecycle as reached (no error surfaces). -/
def messageWithToolsPostTail (d : Daemon) (remote : RemoteEnv) (opts : MessageOpts)
    (L : IMessageLifecycle) (pubs : List IMessageLifecycle) (evs : List NetEvent)
    (postEnabled : Bool) : MessageRun :=
  if postEnabled then
    match runStage remote d.tools "postProcess" opts with
    | (.error _, ev) => (.ok L, pubs, evs ++ ev)
    | (.ok ps, ev) =>
        let L6 := { L with postProcessLog := some ps }
        (.ok L6, pubs ++ [L6], evs ++ ev)
  else (.ok L, pubs, evs)

/-- Action stage and hook dispatch inside `messageWithTools`'s
completion handler (daemon.ts lines 484-535); failures are swallowed by
the timeout race and the lifecycle is returned as reached. -/
def messageWithToolsCompleteTail (d : Daemon) (naclSign : NaclSign) (remote : RemoteEnv)
    (hookRemote : HookRemoteEnv) (opts : MessageOpts) (Lc : IMessageLifecycle)
    (pubs : List IMessageLifecycle) (evs : List NetEvent)
    (actionsEnabled postEnabled : Bool) : MessageRun :=
  if actionsEnabled then
    match runStage remote d.tools "action" opts with
    | (.error _, ev) => (.ok Lc, pubs, evs ++ ev)
    | (.ok acts, ev) =>
        let L4 := { Lc with actionsLog := some acts }
        let hookCalls := (L4.hooks.getD []).map (fun h => d.hook naclSign h hookRemote)
        let evH := evs ++ ev ++ (hookCalls.map Prod.snd).flatten
        match collectExcept (hookCalls.map Prod.fst) with
        | .error _ => (.ok L4, pubs ++ [L4], evH)
        | .ok hres =>
            let L5 := { L4 with hooksLog := some hres }
            messageWithToolsPostTail d remote opts L5 (pubs ++ [L4, L5]) evH postEnabled
  else messageWithToolsPostTail d remote opts Lc pubs evs postEnabled

/-- Prompt construction and streaming generation of `messageWithTools`
(daemon.ts lines 446-552): publish `generatedPrompt`, start
`genTextWithTools`, publish the running output total once per chunk,
and on stream completion run the remaining stages; on stream error or
timeout return the lifecycle as reached. -/
def messageWithToolsGenTail (d : Daemon) (naclSign : NaclSign) (remote : RemoteEnv)
    (hookRemote : HookRemoteEnv) (opts : MessageOpts) (provider model : String)
    (chunks : List String) (fate : StreamFate) (L1 : IMessageLifecycle)
    (pubs1 : List IMessageLifecycle) (ev1 : List NetEvent) : MessageRun :=
  let L2 := { L1 with generatedPrompt := some (createPrompt
      (L1.daemonName.getD "") (L1.identityPrompt.getD "") (L1.message.getD "")
      (L1.context.getD []) (L1.tools.getD [])) }
  let pubs2 := pubs1 ++ [L2]
  let ev2 := ev1 ++ [NetEvent.genCalled provider model]
  match fate with
  | .setupFailed e => (.error (wrapErr e), pubs2, ev2)
  | fate =>
    let chunkPubs := (emittedOutputs chunks).map (fun o => { L2 with output := some o })
    let Lc := chunkPubs.getLast?.getD L2
    match fate with
    | .completed =>
        messageWithToolsCompleteTail d naclSign remote hookRemote opts Lc
          (pubs2 ++ chunkPubs) ev2 (opts.stagesActions.getD true)
          (opts.stagesPostProcess.getD true)
    | _ => (.ok Lc, pubs2 ++ chunkPubs, ev2)

/-- `Daemon.messageWithTools(message, opts)`: resolve the LLM
configuration, publish the base lifecycle, run the context stage if
enabled, then the streaming tool-augmented generation path. -/
def Daemon.messageWithTools (d : Daemon) (naclSign : NaclSign) (remote : RemoteEnv)
    (hookRemote : HookRemoteEnv) (chunks : List String) (fate : StreamFate)
    (msg : String) (opts : MessageOpts) (tr : FreshTrace) : MessageRun :=
  match resolveLlm d opts with
  | .error e => (.error (wrapErr e), [], [])
  | .ok (provider, model, _apiKey, _endpoint) =>
    let L0 := baseLifecycle d naclSign msg opts tr
    if opts.stagesContext.getD true then
      match runStage remote d.tools "context" opts with
      | (.error e, ev) => (.error (wrapErr e), [L0], ev)
      | (.ok rs, ev) =>
          let L1 := { L0 with context := some rs }
          messageWithToolsGenTail d naclSign remote hookRemote opts provider model
            chunks fate L1 [L0, L1] ev
    else
      messageWithToolsGenTail d naclSign remote hookRemote opts provider model
        chunks fate L0 [L0] []

/-! ## Claim C6: the hooks field is empty through both pipelines -/

/-- `messagePostTail` publishes only values whose `hooks` and
`hooksLog` are the empty list, given that invariant on its inputs. -/
theorem messagePostTail_hooks (d : Daemon) (remote : RemoteEnv) (opts : MessageOpts)
    (L : IMessageLifecycle) (pubs : List IMessageLifecycle) (evs : List NetEvent)
    (postEnabled : Bool)
    (hL : L.hooks = some [] ∧ L.hooksLog = some [])
    (hp : ∀ v ∈ pubs, v.hooks = some [] ∧ v.hooksLog = some []) :
    ∀ v ∈ (messagePostTail d remote opts L pubs evs postEnabled).2.1,
      v.hooks = some [] ∧ v.hooksLog = some [] := by
  intro v hv
  unfold messagePostTail at hv
  split at hv
  · split at hv
    · exact hp v hv
    · rcases List.mem_append.mp hv with h | h
      · exact hp v h
      · rw [List.mem_singleton] at h
        subst h
        exact ⟨hL.1, hL.2⟩
  · exact hp v hv

/-- `messageWithToolsPostTail` preserves the same invariant. -/
theorem messageWithToolsPostTail_hooks (d : Daemon) (remote : RemoteEnv)
    (opts : MessageOpts) (L : IMessageLifecycle) (pubs : List IMessageLifecycle)
    (evs : List NetEvent) (postEnabled : Bool)
    (hL : L.hooks = some [] ∧ L.hooksLog = some [])
    (hp : ∀ v ∈ pubs, v.hooks = some [] ∧ v.hooksLog = some []) :
    ∀ v ∈ (messageWithToolsPostTail d remote opts L pubs evs postEnabled).2.1,
      v.hooks = some [] ∧ v.hooksLog = some [] := by
  intro v hv
  unfold messageWithToolsPostTail at hv
  split at hv
  · split at hv
    · exact hp v hv
    · rcases List.mem_append.mp hv with h | h
      · exact hp v h
      · rw [List.mem_singleton] at h
        subst h
        exact ⟨hL.1, hL.2⟩
  · exact hp v hv

/-- `messageActionsTail` preserves the invariant: the action publish
keeps `hooks` untouched, the hook loop runs over the empty hook list,
and the `hooksLog` publish is the empty result list. -/
theorem messageActionsTail_hooks (d : Daemon) (naclSign : NaclSign)
    (remote : RemoteEnv) (hookRemote : HookRemoteEnv) (opts : MessageOpts)
    (L3 : IMessageLifecycle) (pubs3 : List IMessageLifecycle) (ev3 : List NetEvent)
    (actionsEnabled postEnabled : Bool)
    (hL : L3.hooks = some [] ∧ L3.hooksLog = some [])
    (hp : ∀ v ∈ pubs3, v.hooks = some [] ∧ v.hooksLog = some []) :
    ∀ v ∈ (messageActionsTail d naclSign remote hookRemote opts L3 pubs3 ev3
        actionsEnabled postEnabled).2.1,
      v.hooks = some [] ∧ v.hooksLog = some [] := by
  intro v hv
  unfold messageActionsTail at hv
  split at hv
  · split at hv
    · exact hp v hv
    · next acts ev heq =>
        rw [show L3.hooks = some [] from hL.1] at hv
        simp only [Option.getD_some, List.map_nil, collectExcept] at hv
        refine messagePostTail_hooks d remote opts _ _ _ postEnabled ?_ ?_ v hv
        · exact ⟨rfl, rfl⟩
        · intro w hw
          rcases List.mem_append.mp hw with h | h
          · exact hp w h
          · rcases List.mem_cons.mp h with h | h
            · subst h
              exact ⟨rfl, hL.2⟩
            · rw [List.mem_singleton] at h
              subst h
              exact ⟨rfl, rfl⟩
  · exact messagePostTail_hooks d remote opts _ _ _ postEnabled hL hp v hv

/-- Per-chunk output publishes preserve the empty-hooks invariant when
the publishing function does. -/
theorem chunkPubs_hooks (g : String → IMessageLifecycle) (outs : List String)
    (hg : ∀ o, (g o).hooks = some [] ∧ (g o).hooksLog = some []) :
    ∀ w ∈ outs.map g, w.hooks = some [] ∧ w.hooksLog = some [] := by
  intro w hw
  rcases List.mem_map.mp hw with ⟨o, _, horig⟩
  subst horig
  exact hg o

/-- The current lifecycle value after the chunk publishes (the last
chunk publish, or the pre-generation value when the stream emitted
nothing) satisfies the empty-hooks invariant. -/
theorem chunkLast_hooks (g : String → IMessageLifecycle) (outs : List String)
    (L : IMessageLifecycle)
    (hg : ∀ o, (g o).hooks = some [] ∧ (g o).hooksLog = some [])
    (hL : L.hooks = some [] ∧ L.hooksLog = some []) :
    ((outs.map g).getLast?.getD L).hooks = some [] ∧
    ((outs.map g).getLast?.getD L).hooksLog = some [] := by
  rcases h : (outs.map g).getLast? with _ | a
  · simpa using hL
  · have hmem := List.mem_of_getLast?_eq_some h
    have := chunkPubs_hooks g outs hg a hmem
    simpa using this

/-- `messageGenTail` preserves the invariant through the prompt and
output publishes. -/
theorem messageGenTail_hooks (d : Daemon) (naclSign : NaclSign) (remote : RemoteEnv)
    (hookRemote : HookRemoteEnv) (gen : GenEnv) (opts : MessageOpts)
    (provider model apiKey endpoint : String) (L1 : IMessageLifecycle)
    (pubs1 : List IMessageLifecycle) (ev1 : List NetEvent)
    (hL : L1.hooks = some [] ∧ L1.hooksLog = some [])
    (hp : ∀ v ∈ pubs1, v.hooks = some [] ∧ v.hooksLog = some []) :
    ∀ v ∈ (messageGenTail d naclSign remote hookRemote gen opts provider model
        apiKey endpoint L1 pubs1 ev1).2.1,
      v.hooks = some [] ∧ v.hooksLog = some [] := by
  intro v hv
  simp only [messageGenTail] at hv
  split at hv
  · rcases List.mem_append.mp hv with h | h
    · exact hp v h
    · rw [List.mem_singleton] at h
      subst h
      exact ⟨hL.1, hL.2⟩
  · refine messageActionsTail_hooks d naclSign remote hookRemote opts _ _ _ _ _
      ?_ ?_ v hv
    · exact ⟨hL.1, hL.2⟩
    · intro w hw
      rcases List.mem_append.mp hw with h | h
      · rcases List.mem_append.mp h with h1 | h1
        · exact hp w h1
        · rw [List.mem_singleton] at h1
          subst h1
          exact ⟨hL.1, hL.2⟩
      · rw [List.mem_singleton] at h
        subst h
        exact ⟨hL.1, hL.2⟩

/-- `messageWithToolsCompleteTail` preserves the invariant. -/
theorem messageWithToolsCompleteTail_hooks (d : Daemon) (naclSign : NaclSign)
    (remote : RemoteEnv) (hookRemote : HookRemoteEnv) (opts : MessageOpts)
    (Lc : IMessageLifecycle) (pubs : List IMessageLifecycle) (evs : List NetEvent)
    (actionsEnabled postEnabled : Bool)
    (hL : Lc.hooks = some [] ∧ Lc.hooksLog = some [])
    (hp : ∀ v ∈ pubs, v.hooks = some [] ∧ v.hooksLog = some []) :
    ∀ v ∈ (messageWithToolsCompleteTail d naclSign remote hookRemote opts Lc pubs evs
        actionsEnabled postEnabled).2.1,
      v.hooks = some [] ∧ v.hooksLog = some [] := by
  intro v hv
  unfold messageWithToolsCompleteTail at hv
  split at hv
  · split at hv
    · exact hp v hv
    · next acts ev heq =>
        rw [show Lc.hooks = some [] from hL.1] at hv
        simp only [Option.getD_some, List.map_nil, collectExcept] at hv
        refine messageWithToolsPostTail_hooks d remote opts _ _ _ postEnabled ?_ ?_ v hv
        · exact ⟨rfl, rfl⟩
        · intro w hw
          rcases List.mem_append.mp hw with h | h
          · exact hp w h
          · rcases List.mem_cons.mp h with h | h
            · subst h
              exact ⟨rfl, hL.2⟩
            · rw [List.mem_singleton] at h
              subst h
              exact ⟨rfl, rfl⟩
  · exact messageWithToolsPostTail_hooks d remote opts _ _ _ postEnabled hL hp v hv

/-- `messageWithToolsGenTail` preserves the invariant through the
prompt publish and every chunk publish. -/
theorem messageWithToolsGenTail_hooks (d : Daemon) (naclSign : NaclSign)
    (remote : RemoteEnv) (hookRemote : HookRemoteEnv) (opts : MessageOpts)
    (provider model : String) (chunks : List String) (fate : StreamFate)
    (L1 : IMessageLifecycle) (pubs1 : List IMessageLifecycle) (ev1 : List NetEvent)
    (hL : L1.hooks = some [] ∧ L1.hooksLog = some [])
    (hp : ∀ v ∈ pubs1, v.hooks = some [] ∧ v.hooksLog = some []) :
    ∀ v ∈ (messageWithToolsGenTail d naclSign remote hookRemote opts provider model
        chunks fate L1 pubs1 ev1).2.1,
      v.hooks = some [] ∧ v.hooksLog = some [] := by
  intro v hv
  simp only [messageWithToolsGenTail] at hv
  split at hv
  · rcases List.mem_append.mp hv with h | h
    · exact hp v h
    · rw [List.mem_singleton] at h
      subst h
      exact ⟨hL.1, hL.2⟩
  · split at hv
    · refine messageWithToolsCompleteTail_hooks d naclSign remote hookRemote opts
        _ _ _ _ _ ?_ ?_ v hv
      · exact chunkLast_hooks _ (emittedOutputs chunks) _
          (fun _ => ⟨hL.1, hL.2⟩) ⟨hL.1, hL.2⟩
      · intro w hw
        rcases List.mem_append.mp hw with h | h
        · rcases List.mem_append.mp h with h1 | h1
          · exact hp w h1
          · rw [List.mem_singleton] at h1
            subst h1
            exact ⟨hL.1, hL.2⟩
        · refine chunkPubs_hooks _ (emittedOutputs chunks) ?_ w h
          intro o
          exact ⟨hL.1, hL.2⟩
    · rcases List.mem_append.mp hv with h | h
      · rcases List.mem_append.mp h with h1 | h1
        · exact hp v h1
        · rw [List.mem_singleton] at h1
          subst h1
          exact ⟨hL.1, hL.2⟩
      · refine chunkPubs_hooks _ (emittedOutputs chunks) ?_ v h
        intro o
        exact ⟨hL.1, hL.2⟩

/-- Claim C6: in both `message` and `messageWithTools`, every published
lifecycle value carries `hooks = []` (set at the base publish, never
written by a later stage — action results go only to `actionsLog`), so
the hook-dispatch loop iterates over an empty list and `hooksLog` is
published as the empty list, for every input message, every options
value, every registered tool set, and every environment behavior. -/
theorem c6_hooks_always_empty (d : Daemon) (naclSign : NaclSign) (remote : RemoteEnv)
    (hookRemote : HookRemoteEnv) (gen : GenEnv) (chunks : List String)
    (fate : StreamFate) (msg : String) (opts : MessageOpts) (tr : FreshTrace) :
    (∀ v ∈ (d.message naclSign remote hookRemote gen msg opts tr).2.1,
        v.hooks = some [] ∧ v.hooksLog = some []) ∧
    (∀ v ∈ (d.messageWithTools naclSign remote hookRemote chunks fate msg opts tr).2.1,
        v.hooks = some [] ∧ v.hooksLog = some []) := by
  have hbase : (baseLifecycle d naclSign msg opts tr).hooks = some [] ∧
      (baseLifecycle d naclSign msg opts tr).hooksLog = some [] := ⟨rfl, rfl⟩
  constructor
  · intro v hv
    unfold Daemon.message at hv
    split at hv
    · simp at hv
    · split at hv
      · split at hv
        · rw [List.mem_singleton] at hv
          subst hv
          exact hbase
        · refine messageGenTail_hooks d naclSign remote hookRemote gen opts
            _ _ _ _ _ _ _ ?_ ?_ v hv
          · exact ⟨hbase.1, hbase.2⟩
          · intro w hw
            rcases List.mem_cons.mp hw with h | h
            · subst h
              exact hbase
            · rw [List.mem_singleton] at h
              subst h
              exact ⟨hbase.1, hbase.2⟩
      · refine messageGenTail_hooks d naclSign remote hookRemote gen opts
          _ _ _ _ _ _ _ hbase ?_ v hv
        intro w hw
        rw [List.mem_singleton] at hw
        subst hw
        exact hbase
  · intro v hv
    unfold Daemon.messageWithTools at hv
    split at hv
    · simp at hv
    · split at hv
      · split at hv
        · rw [List.mem_singleton] at hv
          subst hv
          exact hbase
        · refine messageWithToolsGenTail_hooks d naclSign remote hookRemote opts
            _ _ chunks fate _ _ _ ?_ ?_ v hv
          · exact ⟨hbase.1, hbase.2⟩
          · intro w hw
            rcases List.mem_cons.mp hw with h | h
            · subst h
              exact hbase
            · rw [List.mem_singleton] at h
              subst h
              exact ⟨hbase.1, hbase.2⟩
      · refine messageWithToolsGenTail_hooks d naclSign remote hookRemote opts
          _ _ chunks fate _ _ _ hbase ?_ v hv
        intro w hw
        rw [List.mem_singleton] at hw
        subst hw
        exact hbase

/-- Concrete daemon for the claim C6 witness. -/
def c6Daemon : Daemon :=
  { character := { name := "TestDaemon", pubkey := "PubKey6", identityPrompt := some "You are TestDaemon." }
    keypair := { publicKeyBase58 := "PubKey6", secretKey := [7] }
    models := []
    tools := [] }

/-- Concrete signing primitive for the claim C6 witness. -/
def c6Nacl : NaclSign := fun m _ => m

/-- Concrete remote environment for the claim C6 witness. -/
def c6Remote : RemoteEnv := fun _ _ => .ok "result"

/-- Concrete hook callback environment for the claim C6 witness. -/
def c6HookRemote : HookRemoteEnv := fun _ _ => .ok "hooked"

/-- Concrete generation adapter for the claim C6 witness. -/
def c6Gen : GenEnv := fun _ _ _ _ _ _ => .ok "generated"

/-- Concrete options for the claim C6 witness. -/
def c6Opts : MessageOpts :=
  { llm := some { provider := "openai", model := "gpt-4o-mini", endpoint := some "e", apiKey := some "k" } }

/-- Concrete fresh-value trace for the claim C6 witness. -/
def c6Tr : FreshTrace :=
  { nanoid1 := "id1", date1 := "t1", date2 := "t2", nanoid2 := "id2" }

/-- Witness for claim C6: the base publish of a concrete `message` call
carries empty `hooks` and `hooksLog`. -/
theorem c6_witness :
    (baseLifecycle c6Daemon c6Nacl "Hi" c6Opts c6Tr).hooks = some [] ∧
    (baseLifecycle c6Daemon c6Nacl "Hi" c6Opts c6Tr).hooksLog = some [] :=
  (c6_hooks_always_empty c6Daemon c6Nacl c6Remote c6HookRemote c6Gen []
      StreamFate.completed "Hi" c6Opts c6Tr).1
    (baseLifecycle c6Daemon c6Nacl "Hi" c6Opts c6Tr)
    (by decide)

/-! ## Claim C8: zero providers fail before any publish or remote call -/

/-- Claim C8: for every daemon with zero registered model providers and
no `opts.llm` override, both `message` and `messageWithTools` fail with
the configuration error before publishing any lifecycle value and
before any network event (no context fetch, no generation call, no
remote invocation): the run is exactly the wrapped
"No model provider added" error with empty publish and event lists. -/
theorem c8_no_provider_early_failure (d : Daemon) (naclSign : NaclSign)
    (remote : RemoteEnv) (hookRemote : HookRemoteEnv) (gen : GenEnv)
    (chunks : List String) (fate : StreamFate) (msg : String) (opts : MessageOpts)
    (tr : FreshTrace) (hm : d.models = []) (hllm : opts.llm = none) :
    d.message naclSign remote hookRemote gen msg opts tr =
      (.error (wrapErr "No model provider added"), [], []) ∧
    d.messageWithTools naclSign remote hookRemote chunks fate msg opts tr =
      (.error (wrapErr "No model provider added"), [], []) := by
  have hres : resolveLlm d opts = .error "No model provider added" := by
    simp [resolveLlm, hm, hllm]
  constructor
  · unfold Daemon.message
    rw [hres]
  · unfold Daemon.messageWithTools
    rw [hres]

/-- Concrete provider-less daemon for the claim C8 witness. -/
def c8Daemon : Daemon :=
  { character := { name := "EmptyDaemon", pubkey := "PK8", identityPrompt := none }
    keypair := { publicKeyBase58 := "PK8", secretKey := [] }
    models := []
    tools := [] }

/-- Concrete signing primitive for the claim C8 witness. -/
def c8Nacl : NaclSign := fun m _ => m

/-- Concrete remote environment for the claim C8 witness. -/
def c8Remote : RemoteEnv := fun _ _ => .ok "r"

/-- Concrete hook callback environment for the claim C8 witness. -/
def c8HookRemote : HookRemoteEnv := fun _ _ => .ok "h"

/-- Concrete generation adapter for the claim C8 witness. -/
def c8Gen : GenEnv := fun _ _ _ _ _ _ => .ok "g"

/-- Concrete fresh-value trace for the claim C8 witness. -/
def c8Tr : FreshTrace := { nanoid1 := "i1", date1 := "t1", date2 := "t2", nanoid2 := "i2" }

/-- Witness for claim C8 at a concrete provider-less daemon. -/
theorem c8_witness :
    Daemon.message c8Daemon c8Nacl c8Remote c8HookRemote c8Gen "Hello"
        MessageOpts.defaults c8Tr =
      (.error (wrapErr "No model provider added"), [], []) ∧
    Daemon.messageWithTools c8Daemon c8Nacl c8Remote c8HookRemote []
        StreamFate.completed "Hello" MessageOpts.defaults c8Tr =
      (.error (wrapErr "No model provider added"), [], []) :=
  c8_no_provider_early_failure c8Daemon c8Nacl c8Remote c8HookRemote c8Gen []
    StreamFate.completed "Hello" MessageOpts.defaults c8Tr rfl rfl

/-! ## Claim C5: resolution from the first registered provider -/

/-- A daemon with one fully populated registered model provider. -/
def c5Daemon : Daemon :=
  { character := { name := "TestDaemon", pubkey := "PK5", identityPrompt := none }
    keypair := { publicKeyBase58 := "PK5", secretKey := [] }
    models := [{ provider := "openai", models := ["gpt-4o-mini"], apiKey := "sk-test", endpoint := "https://api.openai.com/v1" }]
    tools := [] }

/-- Concrete signing primitive for claim C5. -/
def c5Nacl : NaclSign := fun m _ => m

/-- Concrete remote environment for claim C5. -/
def c5Remote : RemoteEnv := fun _ _ => .ok "r"

/-- Concrete hook callback environment for claim C5. -/
def c5HookRemote : HookRemoteEnv := fun _ _ => .ok "h"

/-- Concrete generation adapter for claim C5. -/
def c5Gen : GenEnv := fun _ _ _ _ _ _ => .ok "g"

/-- Concrete fresh-value trace for claim C5. -/
def c5Tr : FreshTrace := { nanoid1 := "i1", date1 := "t1", date2 := "t2", nanoid2 := "i2" }

/-- Claim C5 (refuted by the code, recorded as a code bug): with one
fully populated provider registered and no `opts.llm` override, the
claim says all four configuration checks pass.  In the source the
provider is resolved from `Object.keys(this.models)[0]` — the index
string `"0"` of the provider ARRAY, never a provider name — so the
model lookup finds nothing and both entry points throw
`No LLM model chosen` with no lifecycle published and no network
event. -/
theorem c5_first_provider_resolution_fails :
    resolveLlm c5Daemon MessageOpts.defaults = .error "No LLM model chosen" ∧
    Daemon.message c5Daemon c5Nacl c5Remote c5HookRemote c5Gen "Hello"
        MessageOpts.defaults c5Tr =
      (.error (wrapErr "No LLM model chosen"), [], []) ∧
    Daemon.messageWithTools c5Daemon c5Nacl c5Remote c5HookRemote []
        StreamFate.completed "Hello" MessageOpts.defaults c5Tr =
      (.error (wrapErr "No LLM model chosen"), [], []) :=
  ⟨rfl, rfl, rfl⟩

/-! ## Claim C1: the approval does not cover the lifecycle's own
message id -/

/-- Concrete daemon for claim C1. -/
def c1Daemon : Daemon :=
  { character := { name := "TestDaemon", pubkey := "PK1", identityPrompt := some "You are TestDaemon." }
    keypair := { publicKeyBase58 := "PK1", secretKey := [] }
    models := []
    tools := [] }

/-- Concrete signing primitive for claim C1 (returns the message bytes
unchanged, so distinct signed payloads give distinct signatures). -/
def c1Nacl : NaclSign := fun m _ => m

/-- Concrete remote environment for claim C1. -/
def c1Remote : RemoteEnv := fun _ _ => .ok "r"

/-- Concrete hook callback environment for claim C1. -/
def c1HookRemote : HookRemoteEnv := fun _ _ => .ok "h"

/-- Concrete generation adapter for claim C1. -/
def c1Gen : GenEnv := fun _ _ _ _ _ _ => .ok "g"

/-- Concrete options for claim C1 (an explicit `llm` override so that
resolution succeeds and the base publish happens). -/
def c1Opts : MessageOpts :=
  { llm := some { provider := "openai", model := "m", endpoint := some "e", apiKey := some "k" } }

/-- The fresh-value trace for claim C1: the two `new Date()` calls
return the same instant, the two `nanoid()` calls return distinct fresh
identifiers (`"A"` then `"B"`), as fresh nanoids always are. -/
def c1Tr : FreshTrace := { nanoid1 := "A", date1 := "T", date2 := "T", nanoid2 := "B" }

/-- Claim C1 (refuted by the code, recorded as a code bug): the base
lifecycle published by both `message` and `messageWithTools` at this
concrete call carries an `approval` that is NOT the signature of
`generateApproval` over that lifecycle's own `message`, `createdAt`,
`messageId` and `channelId`: the source computes the approval over a
SECOND fresh `nanoid()` (and a second `Date` call), so it signs a
message id that appears nowhere in the lifecycle. -/
theorem c1_approval_mismatch :
    ((Daemon.message c1Daemon c1Nacl c1Remote c1HookRemote c1Gen "hi" c1Opts
        c1Tr).2.1).head? = some (baseLifecycle c1Daemon c1Nacl "hi" c1Opts c1Tr) ∧
    ((Daemon.messageWithTools c1Daemon c1Nacl c1Remote c1HookRemote []
        StreamFate.completed "hi" c1Opts c1Tr).2.1).head? =
      some (baseLifecycle c1Daemon c1Nacl "hi" c1Opts c1Tr) ∧
    (baseLifecycle c1Daemon c1Nacl "hi" c1Opts c1Tr).approval ≠
      some (Daemon.generateApproval c1Daemon c1Nacl
        ((baseLifecycle c1Daemon c1Nacl "hi" c1Opts c1Tr).message.getD "")
        ((baseLifecycle c1Daemon c1Nacl "hi" c1Opts c1Tr).createdAt.getD "")
        ((baseLifecycle c1Daemon c1Nacl "hi" c1Opts c1Tr).messageId.getD "")
        (baseLifecycle c1Daemon c1Nacl "hi" c1Opts c1Tr).channelId) := by
  refine ⟨rfl, rfl, ?_⟩
  decide
